import Mathlib

/-!
Verification of the anki-writer package-assembly pipeline.

This file is a shallow embedding, in Lean 4, of the TypeScript sources of
the anki-writer repository (src/utils.ts, src/database.ts, src/zip-writer.ts,
src/index.ts), together with theorems settling the specification claims
about it.

Modelling conventions:
* JS numbers used as ids/timestamps are embedded as `Nat` (they are
  non-negative integers in every reachable state); columns whose value can
  be -1 are embedded as `Int`.
* JS strings are embedded as `String`/`List Char` (code points; all inputs
  of interest are in the BMP and surrogate-free).
* `bigint` arithmetic is exact, so it is plain `Nat` arithmetic.
* 32-bit machine arithmetic inside SHA-256 is `Nat` arithmetic reduced
  `% 2^32` wherever the corresponding JS/webcrypto word would wrap.
* Stateful classes become explicit state-passing: a method of class `C`
  returning `T` becomes a function `... → C → Except String T × C`, the
  returned state being the object after the call (unchanged when the
  method throws before mutating).
* The single `col` row's `models`/`decks` TEXT columns hold JSON produced
  by `JSON.stringify`; they are embedded as the ordered key/value entry
  lists of that JSON object (the JSON text is determined by, and
  determines, that list).  `JSON.stringify` enumerates integer-like keys
  (< 2^32 - 1) in ascending numeric order first, then the remaining keys
  in insertion order; `jsObjOrder` below reproduces that.
* External engines (sql.js, archiver, media resolver, output sink) are
  embedded as abstract environments: their fallible completions are
  oracle booleans, their payloads opaque tokens.
-/

set_option maxRecDepth 10000

namespace AnkiWriter

/-! ## SHA-256 (webcrypto `createHash('sha256')`), over byte lists -/

/-- Modulus for 32-bit words. -/
def M32 : Nat := 4294967296

/-- Rotate the 32-bit word `x` right by `k` bits. -/
def rotr32 (k x : Nat) : Nat := ((x >>> k) ||| (x <<< (32 - k))) % M32

/-- Bitwise complement of a 32-bit word. -/
def not32 (x : Nat) : Nat := Nat.xor x 4294967295

/-- Round constants (fractional parts of cube roots of the first 64 primes),
written in decimal. -/
def sha256K : List Nat :=
  [1116352408, 1899447441, 3049323471, 3921009573, 961987163, 1508970993,
   2453635748, 2870763221, 3624381080, 310598401, 607225278, 1426881987,
   1925078388, 2162078206, 2614888103, 3248222580, 3835390401, 4022224774,
   264347078, 604807628, 770255983, 1249150122, 1555081692, 1996064986,
   2554220882, 2821834349, 2952996808, 3210313671, 3336571891, 3584528711,
   113926993, 338241895, 666307205, 773529912, 1294757372, 1396182291,
   1695183700, 1986661051, 2177026350, 2456956037, 2730485921, 2820302411,
   3259730800, 3345764771, 3516065817, 3600352804, 4094571909, 275423344,
   430227734, 506948616, 659060556, 883997877, 958139571, 1322822218,
   1537002063, 1747873779, 1955562222, 2024104815, 2227730452, 2361852424,
   2428436474, 2756734187, 3204031479, 3329325298]

/-- Initial hash value (fractional parts of square roots of the first 8
primes), written in decimal. -/
def sha256H0 : List Nat :=
  [1779033703, 3144134277, 1013904242, 2773480762, 1359893119, 2600822924,
   528734635, 1541459225]

/-- Working registers of the compression function. -/
structure Sha256Regs where
  a : Nat
  b : Nat
  c : Nat
  d : Nat
  e : Nat
  f : Nat
  g : Nat
  h : Nat

/-- One compression round, consuming one (round constant, schedule word) pair. -/
def sha256Round (r : Sha256Regs) (kw : Nat × Nat) : Sha256Regs :=
  let S1 := Nat.xor (Nat.xor (rotr32 6 r.e) (rotr32 11 r.e)) (rotr32 25 r.e)
  let ch := Nat.xor (Nat.land r.e r.f) (Nat.land (not32 r.e) r.g)
  let t1 := (r.h + S1 + ch + kw.1 + kw.2) % M32
  let S0 := Nat.xor (Nat.xor (rotr32 2 r.a) (rotr32 13 r.a)) (rotr32 22 r.a)
  let maj := Nat.xor (Nat.xor (Nat.land r.a r.b) (Nat.land r.a r.c)) (Nat.land r.b r.c)
  let t2 := (S0 + maj) % M32
  ⟨(t1 + t2) % M32, r.a, r.b, r.c, (r.d + t1) % M32, r.e, r.f, r.g⟩

/-- Message-schedule small sigma 0. -/
def smallSigma0 (x : Nat) : Nat := Nat.xor (Nat.xor (rotr32 7 x) (rotr32 18 x)) (x >>> 3)

/-- Message-schedule small sigma 1. -/
def smallSigma1 (x : Nat) : Nat := Nat.xor (Nat.xor (rotr32 17 x) (rotr32 19 x)) (x >>> 10)

/-- Extend the 16 block words by `n` further schedule words. -/
def extendSchedule : Nat → Array Nat → Array Nat
  | 0, w => w
  | n + 1, w =>
    let i := w.size
    let nw := (w.getD (i - 16) 0 + smallSigma0 (w.getD (i - 15) 0) +
               w.getD (i - 7) 0 + smallSigma1 (w.getD (i - 2) 0)) % M32
    extendSchedule n (w.push nw)

/-- Big-endian 32-bit words from bytes (groups of 4). -/
def bytesToWords : List Nat → List Nat
  | b0 :: b1 :: b2 :: b3 :: rest => (((b0 * 256 + b1) * 256 + b2) * 256 + b3) :: bytesToWords rest
  | _ => []

/-- Big-endian bytes of a 32-bit word. -/
def wordToBytes (w : Nat) : List Nat :=
  [(w >>> 24) % 256, (w >>> 16) % 256, (w >>> 8) % 256, w % 256]

/-- Compress one 64-byte block into the running hash (8 words). -/
def processBlock (H : List Nat) (block : List Nat) : List Nat :=
  let w := extendSchedule 48 (bytesToWords block).toArray
  let regs0 : Sha256Regs :=
    ⟨H.getD 0 0, H.getD 1 0, H.getD 2 0, H.getD 3 0, H.getD 4 0, H.getD 5 0, H.getD 6 0, H.getD 7 0⟩
  let r := (sha256K.zip w.toList).foldl sha256Round regs0
  [(H.getD 0 0 + r.a) % M32, (H.getD 1 0 + r.b) % M32, (H.getD 2 0 + r.c) % M32,
   (H.getD 3 0 + r.d) % M32, (H.getD 4 0 + r.e) % M32, (H.getD 5 0 + r.f) % M32,
   (H.getD 6 0 + r.g) % M32, (H.getD 7 0 + r.h) % M32]

/-- Big-endian 8 bytes of a (≤ 64-bit) length field. -/
def beBytes8 (n : Nat) : List Nat :=
  [(n >>> 56) % 256, (n >>> 48) % 256, (n >>> 40) % 256, (n >>> 32) % 256,
   (n >>> 24) % 256, (n >>> 16) % 256, (n >>> 8) % 256, n % 256]

/-- Standard SHA-256 padding: 0x80, zeros to 56 mod 64, 64-bit big-endian bit length. -/
def padMessage (msg : List Nat) : List Nat :=
  msg ++ 128 :: List.replicate ((119 - msg.length % 64) % 64) 0 ++ beBytes8 (msg.length * 8)

/-- Fold the compression function over the 64-byte blocks (fuel ≥ block count). -/
def sha256Blocks : Nat → List Nat → List Nat → List Nat
  | _, H, [] => H
  | 0, H, _ => H
  | fuel + 1, H, bytes => sha256Blocks fuel (processBlock H (bytes.take 64)) (bytes.drop 64)

/-- SHA-256 digest (32 bytes) of a byte list. -/
def sha256 (msg : List Nat) : List Nat :=
  let padded := padMessage msg
  ((sha256Blocks padded.length sha256H0 padded).map wordToBytes).flatten

/-- UTF-8 bytes of one code point. -/
def utf8Char (c : Char) : List Nat :=
  let n := c.toNat
  if n < 128 then [n]
  else if n < 2048 then [192 + n / 64, 128 + n % 64]
  else if n < 65536 then [224 + n / 4096, 128 + (n / 64) % 64, 128 + n % 64]
  else [240 + n / 262144, 128 + (n / 4096) % 64, 128 + (n / 64) % 64, 128 + n % 64]

/-- UTF-8 bytes of a string (what `update(hashStr, 'utf8')` hashes). -/
def strUtf8 (s : String) : List Nat := (s.data.map utf8Char).flatten

/-! ## src/utils.ts -/

/-- Base91 encoding alphabet (Anki-specific), from `BASE91_TABLE` in src/utils.ts.
The JS table is a list of 91 one-character strings; it is embedded as the list
of those characters. -/
def BASE91_TABLE : List Char :=
  "abcdefghijklmnopqrstuvwxyzABCDEFGHIJKLMNOPQRSTUVWXYZ0123456789!#$%&()*+,-./:;<=>?@[]^_`\x7b|\x7d~".data

/-- Digit characters of `toBase91`, least significant first (the `while` loop of
`toBase91`; fuel ≥ the starting number, which makes the recursion exact). -/
def toBase91Aux : Nat → Nat → List Char
  | _, 0 => []
  | 0, _ => []
  | fuel + 1, num => BASE91_TABLE.getD (num % 91) 'a' :: toBase91Aux fuel (num / 91)

/-- Convert a non-negative integer to a base91 string (`toBase91` in src/utils.ts). -/
def toBase91 (num : Nat) : String :=
  if num = 0 then String.mk [BASE91_TABLE.getD 0 'a']
  else String.mk (toBase91Aux num num).reverse

/-- Generate GUID for a note based on its fields (`generateGuid` in src/utils.ts):
join fields with `"__"`, SHA-256 the UTF-8 bytes, read the first 8 digest bytes
big-endian (`(hashInt << 8n) + byte`), encode in base91. -/
def generateGuid (fields : List String) : String :=
  let hashStr := String.intercalate "__" fields
  let hash := sha256 (strUtf8 hashStr)
  let hashBytes := hash.take 8
  let hashInt := hashBytes.foldl (fun h b => (h <<< 8) + b) 0
  toBase91 hashInt

/-- ID generator that produces sequential timestamps (`IdGenerator` in src/utils.ts);
`currentId` is seeded from `Date.now()` (or the constructor argument). -/
structure IdGenerator where
  currentId : Nat
deriving DecidableEq

/-- Post-increment `next()`: returns the current value, then increments it. -/
def IdGenerator.next (g : IdGenerator) : Nat × IdGenerator :=
  (g.currentId, ⟨g.currentId + 1⟩)

/-- Non-mutating `peek()`: returns the current value. -/
def IdGenerator.peek (g : IdGenerator) : Nat := g.currentId

/-- Format tags for Anki (`formatTags` in src/utils.ts). -/
def formatTags (tags : List String) : String :=
  if tags.length = 0 then "" else " " ++ String.intercalate " " tags ++ " "

/-- Join note fields with the 0x1F separator (`joinFields` in src/utils.ts). -/
def joinFields (fields : List String) : String := String.intercalate "\x1f" fields

/-- Checksum placeholder (`calculateChecksum` in src/utils.ts): always 0. -/
def calculateChecksum (_firstField : String) : Nat := 0

/-- Requirements array for card templates (`generateRequirements` in src/utils.ts):
one `[idx, "any", [0]]` entry per template. -/
def generateRequirements {α β : Type} (templates : List α) (_fields : List β) :
    List (Nat × String × List Nat) :=
  (List.range templates.length).map (fun idx => (idx, "any", [0]))

/-! ## Media filename extraction (`extractMediaFilenames` in src/utils.ts)

The two JS regexes `/\[sound:([^\]]+)\]/g` and `/<img[^>]+src=["']([^"']+)["']/gi`
are embedded as direct scanners with JS `matchAll` semantics: candidate start
positions are tried left to right, a successful match is emitted and scanning
resumes after its end, and the greedy `[^>]+` of the img pattern backtracks
from its longest extent. -/

/-- Double-quote character. -/
def dq : Char := Char.ofNat 34

/-- Single-quote character. -/
def sq : Char := Char.ofNat 39

/-- Match a literal character list at the front, returning the remainder. -/
def dropLit : List Char → List Char → Option (List Char)
  | [], cs => some cs
  | _ :: _, [] => none
  | l :: ls, c :: cs => if c = l then dropLit ls cs else none

/-- Case-insensitive variant of `dropLit` (for the `/i` flag). -/
def dropLitCI : List Char → List Char → Option (List Char)
  | [], cs => some cs
  | _ :: _, [] => none
  | l :: ls, c :: cs => if c.toLower = l.toLower then dropLitCI ls cs else none

/-- Attempt `\[sound:([^\]]+)\]` at the start of `cs`; on success return the
capture and the remainder after the match. -/
def matchSoundAt (cs : List Char) : Option (List Char × List Char) :=
  match dropLit "[sound:".data cs with
  | none => none
  | some cs1 =>
    let cap := cs1.takeWhile (fun c => c ≠ ']')
    match cap, cs1.dropWhile (fun c => c ≠ ']') with
    | [], _ => none
    | _ :: _, r :: rest => if r = ']' then some (cap, rest) else none
    | _ :: _, [] => none

/-- Attempt `src=["']([^"']+)["']` (case-insensitive `src`) at the start of `cs`. -/
def matchSrcTail (cs : List Char) : Option (List Char × List Char) :=
  match dropLitCI "src=".data cs with
  | none => none
  | some [] => none
  | some (q :: cs3) =>
    if q = dq ∨ q = sq then
      let cap := cs3.takeWhile (fun c => c ≠ dq ∧ c ≠ sq)
      match cap, cs3.dropWhile (fun c => c ≠ dq ∧ c ≠ sq) with
      | [], _ => none
      | _ :: _, r :: rest => if r = dq ∨ r = sq then some (cap, rest) else none
      | _ :: _, [] => none
    else none

/-- Greedy backtracking for `[^>]+`: try consuming `k` characters (all within the
maximal `>`‑free run), largest first, then the `src=...` tail. -/
def imgBacktrack : Nat → List Char → Option (List Char × List Char)
  | 0, _ => none
  | k + 1, cs1 =>
    match matchSrcTail (cs1.drop (k + 1)) with
    | some r => some r
    | none => imgBacktrack k cs1

/-- Attempt `<img[^>]+src=["']([^"']+)["']` (case-insensitive) at the start of `cs`. -/
def matchImgAt (cs : List Char) : Option (List Char × List Char) :=
  match dropLitCI "<img".data cs with
  | none => none
  | some cs1 => imgBacktrack (cs1.takeWhile (fun c => c ≠ '>')).length cs1

/-- Scan for all sound matches, left to right (fuel ≥ list length is exact). -/
def scanSounds : Nat → List Char → List String
  | 0, _ => []
  | _ + 1, [] => []
  | fuel + 1, c :: cs =>
    match matchSoundAt (c :: cs) with
    | some (cap, rest) => String.mk cap :: scanSounds fuel rest
    | none => scanSounds fuel cs

/-- Scan for all img-src matches, left to right (fuel ≥ list length is exact). -/
def scanImgs : Nat → List Char → List String
  | 0, _ => []
  | _ + 1, [] => []
  | fuel + 1, c :: cs =>
    match matchImgAt (c :: cs) with
    | some (cap, rest) => String.mk cap :: scanImgs fuel rest
    | none => scanImgs fuel cs

/-- Extract media filenames from HTML content (`extractMediaFilenames` in
src/utils.ts): first every `[sound:...]` capture in text order, then every
`<img ... src=...>` capture in text order. -/
def extractMediaFilenames (html : String) : List String :=
  scanSounds html.data.length html.data ++ scanImgs html.data.length html.data

/-! ## src/types.ts

Optional (`?`) attributes are `Option`; `x ?? y` is `x.getD y`.  A TS
`number | null` optional attribute is collapsed to one `Option` (the code
treats `null` and `undefined` identically, via `??`). -/

/-- Anki model field definition (`AnkiField`). -/
structure AnkiField where
  name : String
  ord : Nat
  sticky : Option Bool := none
  rtl : Option Bool := none
  font : Option String := none
  size : Option Nat := none
deriving DecidableEq

/-- Anki card template definition (`AnkiTemplate`). -/
structure AnkiTemplate where
  name : String
  ord : Nat
  qfmt : String
  afmt : String
  bqfmt : Option String := none
  bafmt : Option String := none
  did : Option Nat := none
deriving DecidableEq

/-- Anki model definition (`AnkiModel`). `vers` is `any[]` in TS and is only
ever defaulted to `[]`; it is embedded as a list of numbers. -/
structure AnkiModel where
  id : Nat
  name : String
  type : Option Nat := none
  mod : Option Nat := none
  usn : Option Int := none
  sortf : Option Nat := none
  did : Option Nat := none
  tmpls : List AnkiTemplate
  flds : List AnkiField
  css : String
  latexPre : Option String := none
  latexPost : Option String := none
  latexsvg : Option Bool := none
  req : Option (List (Nat × String × List Nat)) := none
  tags : Option (List String) := none
  vers : Option (List Nat) := none
deriving DecidableEq

/-- Anki deck definition (`AnkiDeck`). -/
structure AnkiDeck where
  id : Nat
  name : String
  desc : Option String := none
  collapsed : Option Bool := none
  conf : Option Nat := none
  dyn : Option Nat := none
  extendNew : Option Nat := none
  extendRev : Option Nat := none
  lrnToday : Option (Nat × Nat) := none
  mod : Option Nat := none
  newToday : Option (Nat × Nat) := none
  revToday : Option (Nat × Nat) := none
  timeToday : Option (Nat × Nat) := none
  usn : Option Int := none
deriving DecidableEq

/-- Note data for adding to a deck (`AnkiNote`). -/
structure AnkiNote where
  fields : List String
  tags : Option (List String) := none
  guid : Option String := none
deriving DecidableEq

/-! ## Default payloads (src/utils.ts) -/

/-- Default LaTeX preamble (`getDefaultLatexPre`). -/
def getDefaultLatexPre : String :=
  "\\documentclass[12pt]\x7barticle\x7d\n\\special\x7bpapersize=3in,5in\x7d\n\\usepackage[utf8]\x7binputenc\x7d\n\\usepackage\x7bamssymb,amsmath\x7d\n\\pagestyle\x7bempty\x7d\n\\setlength\x7b\\parindent\x7d\x7b0in\x7d\n\\begin\x7bdocument\x7d\n"

/-- Default LaTeX postamble (`getDefaultLatexPost`). -/
def getDefaultLatexPost : String := "\\end\x7bdocument\x7d"

/-- JSON text of `getDefaultCollectionConfig()` as `JSON.stringify` emits it. -/
def defaultConfJson : String :=
  "\x7b\"activeDecks\":[1],\"curDeck\":1,\"newSpread\":0,\"collapseTime\":1200,\"timeLim\":0,\"estTimes\":true,\"dueCounts\":true,\"curModel\":null,\"nextPos\":1,\"sortType\":\"noteFld\",\"sortBackwards\":false,\"addToCur\":true,\"dayLearnFirst\":false\x7d"

/-- JSON text of `getDefaultDeckConfig()` as `JSON.stringify` emits it. -/
def defaultDconfJson : String :=
  "\x7b\"1\":\x7b\"id\":1,\"name\":\"Default\",\"replayq\":true,\"lapse\":\x7b\"leechFails\":8,\"minInt\":1,\"delays\":[10],\"leechAction\":0,\"mult\":0\x7d,\"rev\":\x7b\"perDay\":200,\"fuzz\":0.05,\"ivlFct\":1,\"maxIvl\":36500,\"ease4\":1.3,\"bury\":false,\"minSpace\":1\x7d,\"timer\":0,\"maxTaken\":60,\"usn\":-1,\"new\":\x7b\"perDay\":20,\"delays\":[1,10],\"ints\":[1,4,7],\"initialFactor\":2500,\"separate\":true,\"order\":1,\"bury\":false\x7d,\"mod\":0,\"autoplay\":true\x7d\x7d"

/-! ## Insertion-ordered maps and JS object key order -/

/-- Get from an insertion-ordered map (`Map.prototype.get`). -/
def mapGet {α : Type} (l : List (Nat × α)) (k : Nat) : Option α :=
  (l.find? (fun p => p.1 = k)).map (fun p => p.2)

/-- Set in an insertion-ordered map (`Map.prototype.set`): an existing key keeps
its position and gets the new value; a new key is appended. -/
def mapSet {α : Type} (l : List (Nat × α)) (k : Nat) (v : α) : List (Nat × α) :=
  if l.any (fun p => p.1 = k) then l.map (fun p => if p.1 = k then (k, v) else p)
  else l ++ [(k, v)]

/-- Insert into a key-sorted list (ascending). -/
def insertByKey {α : Type} (x : Nat × α) : List (Nat × α) → List (Nat × α)
  | [] => [x]
  | y :: ys => if x.1 ≤ y.1 then x :: y :: ys else y :: insertByKey x ys

/-- Insertion sort by key, ascending. -/
def sortByKey {α : Type} : List (Nat × α) → List (Nat × α)
  | [] => []
  | x :: xs => insertByKey x (sortByKey xs)

/-- Key/value entries of the JS object `{ [k.toString()]: v }` in the order
`JSON.stringify` serializes them: integer-like keys (< 2^32 - 1) ascending
first, then the remaining keys in insertion order. -/
def jsObjOrder {α : Type} (l : List (Nat × α)) : List (String × α) :=
  (sortByKey (l.filter (fun p => p.1 < 4294967295)) ++
    l.filter (fun p => 4294967295 ≤ p.1)).map (fun p => (toString p.1, p.2))

/-! ## src/database.ts -/

/-- One row of the `notes` table.  `sfld` is `note.fields[model.sortf ?? 0]`,
which in JS is `undefined` when the index is out of range — hence `Option`. -/
structure NoteRow where
  id : Nat
  guid : String
  mid : Nat
  mod : Nat
  usn : Int
  tags : String
  flds : String
  sfld : Option String
  csum : Nat
  flags : Nat
  data : String
deriving DecidableEq

/-- One row of the `cards` table. -/
structure CardRow where
  id : Nat
  nid : Nat
  did : Nat
  ord : Nat
  mod : Nat
  usn : Int
  type : Nat
  queue : Nat
  due : Nat
  ivl : Nat
  factor : Nat
  reps : Nat
  lapses : Nat
  left : Nat
  odue : Nat
  odid : Nat
  flags : Nat
  data : String
deriving DecidableEq

/-- One row of the `revlog` table (never inserted by this code). -/
structure RevlogRow where
  id : Nat
  cid : Nat
  usn : Int
  ease : Nat
  ivl : Int
  lastIvl : Int
  factor : Nat
  time : Nat
  type : Nat
deriving DecidableEq

/-- One row of the `graves` table (never inserted by this code). -/
structure GraveRow where
  usn : Int
  oid : Nat
  type : Nat
deriving DecidableEq

/-- The single row of the `col` table.  The `models`/`decks` TEXT columns are
embedded as the entry lists of their JSON objects (see header). -/
structure ColRow where
  id : Nat
  crt : Nat
  mod : Nat
  scm : Nat
  ver : Nat
  dty : Nat
  usn : Int
  ls : Nat
  conf : String
  models : List (String × AnkiModel)
  decks : List (String × AnkiDeck)
  dconf : String
  tags : String
deriving DecidableEq

/-- The in-memory sql.js database after the schema DDL: five relations. -/
structure DbState where
  col : List ColRow
  notes : List NoteRow
  cards : List CardRow
  revlog : List RevlogRow
  graves : List GraveRow
deriving DecidableEq

/-- The `AnkiDatabase` class state: the sql.js handle (`none` = `null`), the id
generator, the two insertion-ordered maps, and the `initialized` flag (named
`inited` here). -/
structure AnkiDatabase where
  db : Option DbState
  idGen : IdGenerator
  models : List (Nat × AnkiModel)
  decks : List (Nat × AnkiDeck)
  inited : Bool
deriving DecidableEq

/-- The `AnkiDatabase` constructor, with the `Date.now()` seed made explicit. -/
def mkAnkiDatabase (seed : Nat) : AnkiDatabase :=
  { db := none, idGen := ⟨seed⟩, models := [], decks := [], inited := false }

/-- Fill field defaults (the `fullFields` map in `addModel`). -/
def fillField (f : AnkiField) : AnkiField :=
  { f with sticky := some (f.sticky.getD false), rtl := some (f.rtl.getD false),
           font := some (f.font.getD "Arial"), size := some (f.size.getD 20) }

/-- Fill template defaults (the `fullTemplates` map in `addModel`). -/
def fillTemplate (t : AnkiTemplate) : AnkiTemplate :=
  { t with bqfmt := some (t.bqfmt.getD ""), bafmt := some (t.bafmt.getD ""),
           did := t.did }

/-- Fill model defaults (the `fullModel` literal in `addModel`).  `mod` defaults
to the current time in seconds, passed in as `now`. -/
def fillModel (m : AnkiModel) (now : Nat) : AnkiModel :=
  { m with flds := m.flds.map fillField, tmpls := m.tmpls.map fillTemplate,
           type := some (m.type.getD 0), mod := some (m.mod.getD now),
           usn := some (m.usn.getD (-1)), sortf := some (m.sortf.getD 0),
           did := m.did,
           latexPre := some (m.latexPre.getD getDefaultLatexPre),
           latexPost := some (m.latexPost.getD getDefaultLatexPost),
           latexsvg := some (m.latexsvg.getD false),
           req := some (m.req.getD (generateRequirements m.tmpls m.flds)),
           tags := some (m.tags.getD []), vers := some (m.vers.getD []) }

/-- Fill deck defaults (the `fullDeck` literal in `addDeck`). -/
def fillDeck (d : AnkiDeck) (now : Nat) : AnkiDeck :=
  { d with desc := some (d.desc.getD ""), collapsed := some (d.collapsed.getD false),
           conf := some (d.conf.getD 1), dyn := some (d.dyn.getD 0),
           extendNew := some (d.extendNew.getD 0), extendRev := some (d.extendRev.getD 50),
           lrnToday := some (d.lrnToday.getD (0, 0)), mod := some (d.mod.getD now),
           newToday := some (d.newToday.getD (0, 0)), revToday := some (d.revToday.getD (0, 0)),
           timeToday := some (d.timeToday.getD (0, 0)), usn := some (d.usn.getD (-1)) }

/-- Rewrite the `models` column of the col row with id 1
(`UPDATE col SET models = ? WHERE id = 1`). -/
def setColModels (d : DbState) (ms : List (String × AnkiModel)) : DbState :=
  { d with col := d.col.map (fun r => if r.id = 1 then { r with models := ms } else r) }

/-- Rewrite the `decks` column of the col row with id 1. -/
def setColDecks (d : DbState) (ds : List (String × AnkiDeck)) : DbState :=
  { d with col := d.col.map (fun r => if r.id = 1 then { r with decks := ds } else r) }

/-- `init()`: no-op when already done; otherwise create the database, run the
schema DDL (five empty relations) and insert the single col row.  The two
wall-clock reads `timestampMillis()`/`timestampSeconds()` are `nowMs`/`nowSec`. -/
def AnkiDatabase.init (nowMs nowSec : Nat) (st : AnkiDatabase) : AnkiDatabase :=
  if st.inited then st
  else
    { st with
      db := some
        { col := [{ id := 1, crt := nowSec, mod := nowMs, scm := nowMs, ver := 11, dty := 0,
                    usn := -1, ls := 0, conf := defaultConfJson, models := [], decks := [],
                    dconf := defaultDconfJson, tags := "\x7b\x7d" }],
          notes := [], cards := [], revlog := [], graves := [] },
      inited := true }

/-- `addModel(model)`: fill defaults, store under the model id, rewrite the
whole `models` JSON blob. -/
def AnkiDatabase.addModel (m : AnkiModel) (now : Nat) (st : AnkiDatabase) :
    Except String Unit × AnkiDatabase :=
  match st.db with
  | none => (.error "Database not initialized", st)
  | some d =>
    let fullModel := fillModel m now
    let models' := mapSet st.models m.id fullModel
    (.ok (), { st with models := models', db := some (setColModels d (jsObjOrder models')) })

/-- `addDeck(deck)`: fill defaults, store under the deck id, rewrite the whole
`decks` JSON blob. -/
def AnkiDatabase.addDeck (dk : AnkiDeck) (now : Nat) (st : AnkiDatabase) :
    Except String Unit × AnkiDatabase :=
  match st.db with
  | none => (.error "Database not initialized", st)
  | some d =>
    let fullDeck := fillDeck dk now
    let decks' := mapSet st.decks dk.id fullDeck
    (.ok (), { st with decks := decks', db := some (setColDecks d (jsObjOrder decks')) })

/-- `addCard(noteId, deckId, ord)`: allocate a card id, insert a cards row in
the new scheduling state with `due` equal to the card's own id. -/
def AnkiDatabase.addCard (noteId deckId ord now : Nat) (st : AnkiDatabase) :
    Except String Nat × AnkiDatabase :=
  match st.db with
  | none => (.error "Database not initialized", st)
  | some d =>
    let (cardId, g') := st.idGen.next
    let row : CardRow :=
      { id := cardId, nid := noteId, did := deckId, ord := ord, mod := now, usn := -1,
        type := 0, queue := 0, due := cardId, ivl := 0, factor := 0, reps := 0,
        lapses := 0, left := 0, odue := 0, odid := 0, flags := 0, data := "" }
    (.ok cardId, { st with idGen := g', db := some { d with cards := d.cards ++ [row] } })

/-- The card-generation loop of `addNote` (`for (let ord = 0; ...)`), with a
throw from `addCard` propagating. -/
def addCardsFold : List Nat → Nat → Nat → Nat → AnkiDatabase → Except String Unit × AnkiDatabase
  | [], _, _, _, st => (.ok (), st)
  | ord :: rest, nid, did, now, st =>
    match AnkiDatabase.addCard nid did ord now st with
    | (.error e, st') => (.error e, st')
    | (.ok _, st') => addCardsFold rest nid did now st'

/-- `addNote(note, modelId, deckId)`: model lookup, field-count check, note row
insert, one card per template ordinal, returning the note id. -/
def AnkiDatabase.addNote (note : AnkiNote) (modelId deckId now : Nat) (st : AnkiDatabase) :
    Except String Nat × AnkiDatabase :=
  match st.db with
  | none => (.error "Database not initialized", st)
  | some d =>
    match mapGet st.models modelId with
    | none => (.error ("Model " ++ toString modelId ++ " not found"), st)
    | some model =>
      if note.fields.length ≠ model.flds.length then
        (.error ("Note has " ++ toString note.fields.length ++ " fields, but model expects " ++
                 toString model.flds.length), st)
      else
        let (noteId, g') := st.idGen.next
        let guid := note.guid.getD (generateGuid note.fields)
        let tags := formatTags (note.tags.getD [])
        let flds := joinFields note.fields
        let sfld := note.fields[model.sortf.getD 0]?
        let csum := calculateChecksum (note.fields.headD "")
        let row : NoteRow :=
          { id := noteId, guid := guid, mid := modelId, mod := now, usn := -1, tags := tags,
            flds := flds, sfld := sfld, csum := csum, flags := 0, data := "" }
        let st1 := { st with idGen := g', db := some { d with notes := d.notes ++ [row] } }
        match addCardsFold (List.range model.tmpls.length) noteId deckId now st1 with
        | (.error e, st2) => (.error e, st2)
        | (.ok _, st2) => (.ok noteId, st2)

/-- `export()` (named `exportDb` here; `export` is a Lean keyword): serialize
the database.  The byte payload is a function of the database state, so the
state itself stands for the exported bytes. -/
def AnkiDatabase.exportDb (st : AnkiDatabase) : Except String DbState × AnkiDatabase :=
  match st.db with
  | none => (.error "Database not initialized", st)
  | some d => (.ok d, st)

/-- `close()`: release the handle when open; no-op otherwise. -/
def AnkiDatabase.close (st : AnkiDatabase) : AnkiDatabase :=
  match st.db with
  | some _ => { st with db := none }
  | none => st

/-! ## src/zip-writer.ts -/

/-- Payload of one archive entry.  Media byte-streams are external and opaque;
they are identified by a token. -/
inductive ZipPayload
  | dbPayload (d : DbState)
  | media (stream : Nat)
  | manifest (entries : List (String × String))
deriving DecidableEq

/-- The `ApkgZipWriter` class state: the one-way `finalized` flag and the named
entries appended to the archive so far. -/
structure ApkgZipWriter where
  finalized : Bool
  entries : List (String × ZipPayload)
deriving DecidableEq

/-- The `ApkgZipWriter` constructor. -/
def mkZipWriter : ApkgZipWriter := { finalized := false, entries := [] }

/-- `addDatabase(data)`: appends `collection.anki2` unless finalized. -/
def ApkgZipWriter.addDatabase (data : DbState) (zw : ApkgZipWriter) :
    Except String Unit × ApkgZipWriter :=
  if zw.finalized then (.error "Archive already finalized", zw)
  else (.ok (), { zw with entries := zw.entries ++ [("collection.anki2", .dbPayload data)] })

/-- `addMediaFile(index, stream)`: appends the stream under the stringified
index unless finalized. -/
def ApkgZipWriter.addMediaFile (index stream : Nat) (zw : ApkgZipWriter) :
    Except String Unit × ApkgZipWriter :=
  if zw.finalized then (.error "Archive already finalized", zw)
  else (.ok (), { zw with entries := zw.entries ++ [(toString index, .media stream)] })

/-- `addMediaFiles(entries)`: the `entries.map(addMediaFile)` registrations
happen synchronously in list order. -/
def ApkgZipWriter.addMediaFiles (es : List (Nat × Nat)) (zw : ApkgZipWriter) :
    Except String Unit × ApkgZipWriter :=
  if zw.finalized then (.error "Archive already finalized", zw)
  else
    es.foldl
      (fun acc e =>
        match acc with
        | (.error err, z) => (.error err, z)
        | (.ok _, z) => ApkgZipWriter.addMediaFile e.1 e.2 z)
      ((.ok (), zw) : Except String Unit × ApkgZipWriter)

/-- `addMediaManifest(manifest)`: appends the `media` entry unless finalized. -/
def ApkgZipWriter.addMediaManifest (manifest : List (String × String)) (zw : ApkgZipWriter) :
    Except String Unit × ApkgZipWriter :=
  if zw.finalized then (.error "Archive already finalized", zw)
  else (.ok (), { zw with entries := zw.entries ++ [("media", .manifest manifest)] })

/-- `finalize()`: fails when already finalized, otherwise flips the flag (the
archive-engine flush and sink finish are external completions). -/
def ApkgZipWriter.finalize (zw : ApkgZipWriter) : Except String Unit × ApkgZipWriter :=
  if zw.finalized then (.error "Archive already finalized", zw)
  else (.ok (), { zw with finalized := true })

/-- `buildMediaManifest(filenames)`: index-keyed manifest object in order. -/
def buildMediaManifest (filenames : List String) : List (String × String) :=
  ((List.range filenames.length).zip filenames).map (fun p => (toString p.1, p.2))

/-! ## src/index.ts (orchestrator) -/

/-- Append preserving first-occurrence order (JS `Set.prototype.add`). -/
def dedupAppend (acc : List String) (x : String) : List String :=
  if acc.contains x then acc else acc ++ [x]

/-- `collectMediaFilenames()` of `AnkiPackageWriter`: every field of every note,
note order then field order, extracted and accumulated into the ordered set. -/
def collectMedia (notes : List AnkiNote) : List String :=
  notes.foldl
    (fun acc note =>
      note.fields.foldl (fun a f => (extractMediaFilenames f).foldl dedupAppend a) acc)
    []

/-- Completions of the external collaborators during `create()`: whether sql.js
loads, which media filenames the caller-supplied resolver resolves (a rejection
or stream error fails that entry), and whether the archive flush and output
sink finish succeed. -/
structure CreateEnv where
  sqlJsOk : Bool
  resolveOk : String → Bool
  finalizeOk : Bool

/-- The `for (const note of this.notes)` loop of `create()` step 4. -/
def addNotesLoop : List AnkiNote → Nat → Nat → Nat → AnkiDatabase →
    Except String Unit × AnkiDatabase
  | [], _, _, _, st => (.ok (), st)
  | n :: rest, mid, did, now, st =>
    match AnkiDatabase.addNote n mid did now st with
    | (.error e, st') => (.error e, st')
    | (.ok _, st') => addNotesLoop rest mid did now st'

/-- Resolve every distinct media filename via the caller-supplied resolver
(`writeMediaFiles`): the first rejection fails the whole step; on success each
filename gets the stream token of its index. -/
def resolveAll (env : CreateEnv) (files : List String) : Except String (List (Nat × Nat)) :=
  if files.all env.resolveOk then .ok ((List.range files.length).map (fun i => (i, i)))
  else .error "media resolve failed"

/-- Outcome of `AnkiPackageWriter.create()`: the returned/thrown result and the
final states of the embedded database and the zip writer. -/
structure CreateResult where
  result : Except String Unit
  db : AnkiDatabase
  zip : ApkgZipWriter

/-- The `try` body of `create()` (steps 1–9), threading the database and zip
writer states and stopping at the first raise.  The three `Promise.all`
appends are serialized here (their archive interleaving is unconstrained and
no claim depends on it). -/
def createSteps (model : AnkiModel) (deck : AnkiDeck) (notes : List AnkiNote)
    (env : CreateEnv) (seed nowMs nowSec now : Nat) : CreateResult :=
  let db0 := mkAnkiDatabase seed
  let zw0 := mkZipWriter
  if env.sqlJsOk = false then ⟨.error "sql.js failed to load", db0, zw0⟩
  else
    let db1 := AnkiDatabase.init nowMs nowSec db0
    match AnkiDatabase.addModel model now db1 with
    | (.error e, db2) => ⟨.error e, db2, zw0⟩
    | (.ok _, db2) =>
      match AnkiDatabase.addDeck deck now db2 with
      | (.error e, db3) => ⟨.error e, db3, zw0⟩
      | (.ok _, db3) =>
        let media := collectMedia notes
        match addNotesLoop notes model.id deck.id now db3 with
        | (.error e, db4) => ⟨.error e, db4, zw0⟩
        | (.ok _, db4) =>
          match AnkiDatabase.exportDb db4 with
          | (.error e, db5) => ⟨.error e, db5, zw0⟩
          | (.ok dbData, db5) =>
            match resolveAll env media with
            | .error e => ⟨.error e, db5, zw0⟩
            | .ok mediaEntries =>
              match ApkgZipWriter.addMediaFiles mediaEntries zw0 with
              | (.error e, zw1) => ⟨.error e, db5, zw1⟩
              | (.ok _, zw1) =>
                match ApkgZipWriter.addDatabase dbData zw1 with
                | (.error e, zw2) => ⟨.error e, db5, zw2⟩
                | (.ok _, zw2) =>
                  match ApkgZipWriter.addMediaManifest (buildMediaManifest media) zw2 with
                  | (.error e, zw3) => ⟨.error e, db5, zw3⟩
                  | (.ok _, zw3) =>
                    match ApkgZipWriter.finalize zw3 with
                    | (.error e, zw4) => ⟨.error e, db5, zw4⟩
                    | (.ok _, zw4) =>
                      if env.finalizeOk then ⟨.ok (), db5, zw4⟩
                      else ⟨.error "output sink error", db5, zw4⟩

/-- `AnkiPackageWriter.create()`: the try body, then `this.db.close()` on the
success path (step 10) and equally in the `catch` before the rethrow — i.e.
`close` is applied to the database state however the body exited. -/
def create (model : AnkiModel) (deck : AnkiDeck) (notes : List AnkiNote)
    (env : CreateEnv) (seed nowMs nowSec now : Nat) : CreateResult :=
  let r := createSteps model deck notes env seed nowMs nowSec now
  ⟨r.result, AnkiDatabase.close r.db, r.zip⟩

/-! ## Spec-side definitions (for refinement comparison)

These follow the specification text, not the source; each theorem comparing
one with a source-derived definition is the corresponding claim. -/

/-- Lowercase section of the spec's alphabet. -/
def lowerAlpha : List Char := "abcdefghijklmnopqrstuvwxyz".data

/-- Uppercase section of the spec's alphabet. -/
def upperAlpha : List Char := "ABCDEFGHIJKLMNOPQRSTUVWXYZ".data

/-- Digit section of the spec's alphabet. -/
def digitChars : List Char := "0123456789".data

/-- Fixed punctuation section of the spec's alphabet. -/
def punctChars : List Char := "!#$%&()*+,-./:;<=>?@[]^_`\x7b|\x7d~".data

/-- The spec's 91-character alphabet: lowercase, then uppercase, then digits,
then the fixed punctuation sequence. -/
def specAlphabet : List Char := lowerAlpha ++ upperAlpha ++ digitChars ++ punctChars

/-- Spec-side base-91 encoder: most-significant-digit-first, minimal number of
digits (via `Nat.digits`, whose most significant digit is nonzero), with zero
encoded as the alphabet's first character. -/
def base91SpecEncode (n : Nat) : String :=
  if n = 0 then String.mk [specAlphabet.getD 0 'a']
  else String.mk ((Nat.digits 91 n).reverse.map (fun d => specAlphabet.getD d 'a'))

/-- Spec-side `deriveDedupKey`: join the field strings with the two-character
separator, SHA-256 the UTF-8 bytes, interpret the first 8 digest bytes as a
big-endian unsigned integer, encode in base 91. -/
def deriveDedupKeySpec (fields : List String) : String :=
  base91SpecEncode
    (((sha256 (strUtf8 (String.intercalate "__" fields))).take 8).foldl
      (fun acc b => acc * 256 + b) 0)

/-- Spec-side `extractReferences`: one left-to-right scan that emits, at each
position of appearance, the capture of whichever of the two patterns matches
there (they cannot both match at one position: one starts with `[`, the other
with `<`). -/
def scanRefsInOrder : Nat → List Char → List String
  | 0, _ => []
  | _ + 1, [] => []
  | fuel + 1, c :: cs =>
    match matchSoundAt (c :: cs) with
    | some (cap, rest) => String.mk cap :: scanRefsInOrder fuel rest
    | none =>
      match matchImgAt (c :: cs) with
      | some (cap, rest) => String.mk cap :: scanRefsInOrder fuel rest
      | none => scanRefsInOrder fuel cs

/-- Spec-side `extractReferences(text)`: filenames of both patterns in
left-to-right order of appearance in the text. -/
def extractReferencesSpec (text : String) : List String :=
  scanRefsInOrder text.data.length text.data

/-! ## Concrete fixtures used by example inputs and witnesses -/

/-- One-character string holding a single quote (JS `'` inside the spec's
example strings). -/
def sqs : String := String.mk [sq]

/-- The spec's example input `[sound:a.mp3]<img src='b.png'>`. -/
def exSoundFirst : String := "[sound:a.mp3]<img src=" ++ sqs ++ "b.png" ++ sqs ++ ">"

/-- The same two references with the image first: `<img src='b.png'>[sound:a.mp3]`. -/
def exImgFirst : String := "<img src=" ++ sqs ++ "b.png" ++ sqs ++ ">[sound:a.mp3]"

/-- A minimal registered model: one field, one template. -/
def tinyModel : AnkiModel :=
  { id := 7, name := "m", tmpls := [{ name := "t", ord := 0, qfmt := "q", afmt := "a" }],
    flds := [{ name := "F", ord := 0 }], css := "" }

/-- An empty post-init database state (no col row needed by these witnesses). -/
def tinyDbState : DbState := { col := [], notes := [], cards := [], revlog := [], graves := [] }

/-- An initialized `AnkiDatabase` with `tinyModel` registered and the id
generator at 1000. -/
def tinyDb : AnkiDatabase :=
  { db := some tinyDbState, idGen := ⟨1000⟩, models := [(7, tinyModel)], decks := [],
    inited := true }

/-- The card row inserted by `addCard` for a given card id, note, deck,
ordinal and time. -/
def mkCardRow (cardId nid did ord now : Nat) : CardRow :=
  { id := cardId, nid := nid, did := did, ord := ord, mod := now, usn := -1,
    type := 0, queue := 0, due := cardId, ivl := 0, factor := 0, reps := 0,
    lapses := 0, left := 0, odue := 0, odid := 0, flags := 0, data := "" }

/-- All note and card primary keys allocated so far, notes first then cards
(each table in insertion order). -/
def allIds (st : AnkiDatabase) : List Nat :=
  match st.db with
  | none => []
  | some d => d.notes.map NoteRow.id ++ d.cards.map CardRow.id

/-- Fold a sequence of `addModel` calls (each with its wall-clock second) over
a database state, keeping the state of each call. -/
def applyAddModels (ops : List (AnkiModel × Nat)) (st : AnkiDatabase) : AnkiDatabase :=
  ops.foldl (fun s p => (AnkiDatabase.addModel p.1 p.2 s).2) st

/-- The `models` JSON blob currently stored in the collection row (entry list
of the serialized object), when the database is open and the col row exists. -/
def colModels (st : AnkiDatabase) : Option (List (String × AnkiModel)) :=
  st.db.bind (fun d => (d.col.find? (fun r => r.id = 1)).map (fun r => r.models))

/-! ## Theorems -/

/-- Closing always leaves the handle released, whether or not it was open. -/
lemma close_db_none (st : AnkiDatabase) : (AnkiDatabase.close st).db = none := by
  unfold AnkiDatabase.close
  cases h : st.db <;> simp [h]

/-- C7: for an `IdGenerator` seeded with `s`, `peek()` returns `s` without
changing state, `next()` returns the current value and then increments it
(post-increment); seeded at 1000 the sequence `peek, next, peek, next` returns
1000, 1000, 1001, 1001. -/
theorem idGenerator_post_increment :
    (∀ s : Nat, (IdGenerator.mk s).peek = s ∧ ((IdGenerator.mk s).next).1 = s ∧
      ((IdGenerator.mk s).next).2 = IdGenerator.mk (s + 1))
    ∧ (IdGenerator.mk 1000).peek = 1000
    ∧ ((IdGenerator.mk 1000).next).1 = 1000
    ∧ ((IdGenerator.mk 1000).next).2.peek = 1001
    ∧ ((IdGenerator.mk 1000).next).2.next.1 = 1001 :=
  ⟨fun _ => ⟨rfl, rfl, rfl⟩, rfl, rfl, rfl, rfl⟩

/-- C3: `generateGuid` is deterministic (equal field sequences give equal
outputs); differing inputs give differing outputs with overwhelming
probability, witnessed here on the repository's own two test inputs. -/
theorem generateGuid_deterministic :
    (∀ f₁ f₂ : List String, f₁ = f₂ → generateGuid f₁ = generateGuid f₂)
    ∧ generateGuid ["hello"] ≠ generateGuid ["field1", "field2"] :=
  ⟨fun _ _ h => h ▸ rfl, by decide⟩

/-- Witness for C3 at a concrete input. -/
theorem generateGuid_deterministic_witness :
    generateGuid ["hello"] = generateGuid ["hello"] :=
  generateGuid_deterministic.1 ["hello"] ["hello"] rfl

/-- C5: a successful `finalize()` flips the one-way flag; afterwards every
mutating call on the zip writer fails with the "already finalized" error and
leaves state unchanged; `close()` leaves the handle released, and with the
handle released every database mutator and `export` fails with the
"not initialized" error and leaves state unchanged. -/
theorem lifecycle_errors_after_finalize_and_close :
    (∀ zw : ApkgZipWriter, zw.finalized = false →
      ApkgZipWriter.finalize zw = (.ok (), { zw with finalized := true }))
    ∧ (∀ zw : ApkgZipWriter, zw.finalized = true →
        (∀ data, ApkgZipWriter.addDatabase data zw = (.error "Archive already finalized", zw))
        ∧ (∀ i s, ApkgZipWriter.addMediaFile i s zw = (.error "Archive already finalized", zw))
        ∧ (∀ es, ApkgZipWriter.addMediaFiles es zw = (.error "Archive already finalized", zw))
        ∧ (∀ man, ApkgZipWriter.addMediaManifest man zw = (.error "Archive already finalized", zw))
        ∧ ApkgZipWriter.finalize zw = (.error "Archive already finalized", zw))
    ∧ (∀ st : AnkiDatabase, (AnkiDatabase.close st).db = none)
    ∧ (∀ st : AnkiDatabase, st.db = none →
        (∀ m now, AnkiDatabase.addModel m now st = (.error "Database not initialized", st))
        ∧ (∀ dk now, AnkiDatabase.addDeck dk now st = (.error "Database not initialized", st))
        ∧ (∀ note mid did now,
            AnkiDatabase.addNote note mid did now st = (.error "Database not initialized", st))
        ∧ AnkiDatabase.exportDb st = (.error "Database not initialized", st)) := by
  refine ⟨?_, ?_, close_db_none, ?_⟩
  · intro zw h
    simp [ApkgZipWriter.finalize, h]
  · intro zw h
    refine ⟨?_, ?_, ?_, ?_, ?_⟩ <;>
      intros <;>
      simp [ApkgZipWriter.addDatabase, ApkgZipWriter.addMediaFile, ApkgZipWriter.addMediaFiles,
            ApkgZipWriter.addMediaManifest, ApkgZipWriter.finalize, h]
  · intro st h
    refine ⟨?_, ?_, ?_, ?_⟩ <;>
      intros <;>
      simp [AnkiDatabase.addModel, AnkiDatabase.addDeck, AnkiDatabase.addNote,
            AnkiDatabase.exportDb, h]

/-- Witness for C5 at concrete states. -/
theorem lifecycle_errors_after_finalize_and_close_witness :
    ApkgZipWriter.finalize { finalized := true, entries := [] } =
      (.error "Archive already finalized", { finalized := true, entries := [] })
    ∧ AnkiDatabase.exportDb (mkAnkiDatabase 0) =
      (.error "Database not initialized", mkAnkiDatabase 0) :=
  ⟨(lifecycle_errors_after_finalize_and_close.2.1 ⟨true, []⟩ rfl).2.2.2.2,
   (lifecycle_errors_after_finalize_and_close.2.2.2 (mkAnkiDatabase 0) rfl).2.2.2⟩

/-- C8: `create()` releases the embedded database handle on every exit path —
for every environment outcome (sql.js load, per-filename media resolution,
archive flush/sink finish) and every input, the database handle in the final
state is closed, error or no error. -/
theorem create_closes_database :
    ∀ (model : AnkiModel) (deck : AnkiDeck) (notes : List AnkiNote) (env : CreateEnv)
      (seed nowMs nowSec now : Nat),
      (create model deck notes env seed nowMs nowSec now).db.db = none := by
  intro model deck notes env seed nowMs nowSec now
  unfold create
  exact close_db_none _

/-- Counterexample to C2: on `<img src='b.png'>[sound:a.mp3]` the code returns
the sound capture first, not the references in left-to-right order of
appearance. -/
theorem extract_order_counterexample :
    extractMediaFilenames exImgFirst = ["a.mp3", "b.png"]
    ∧ extractReferencesSpec exImgFirst = ["b.png", "a.mp3"]
    ∧ extractMediaFilenames exImgFirst ≠ extractReferencesSpec exImgFirst := by
  refine ⟨by decide, by decide, by decide⟩

/-- C2 (amended): `extractMediaFilenames` returns all `[sound:...]` filenames
in left-to-right order of appearance, followed by all `<img src=...>` filenames
(single- or double-quoted) in left-to-right order of appearance; on
`[sound:a.mp3]<img src='b.png'>` it yields `["a.mp3", "b.png"]` in that order. -/
theorem extractMediaFilenames_sounds_then_imgs :
    (∀ text : String, extractMediaFilenames text =
      scanSounds text.data.length text.data ++ scanImgs text.data.length text.data)
    ∧ extractMediaFilenames exSoundFirst = ["a.mp3", "b.png"]
    ∧ extractMediaFilenames ("[sound:audio.mp3]\n<img src=\"picture.png\" />\n<img src=" ++
        sqs ++ "nested/photo.jpg" ++ sqs ++ ">") =
      ["audio.mp3", "picture.png", "nested/photo.jpg"] := by
  refine ⟨fun _ => rfl, by decide, by decide⟩

/-- The source's table is exactly the spec's four-section alphabet. -/
lemma base91_table_eq : BASE91_TABLE = specAlphabet := by decide

/-- The digit loop of `toBase91` produces the base-91 digits of its input,
least significant first, whenever the fuel is sufficient. -/
lemma toBase91Aux_eq_digits :
    ∀ (fuel n : Nat), n ≤ fuel →
      toBase91Aux fuel n = (Nat.digits 91 n).map (fun d => BASE91_TABLE.getD d 'a') := by
  intro fuel
  induction fuel with
  | zero =>
    intro n hn
    obtain rfl : n = 0 := Nat.le_zero.mp hn
    simp [toBase91Aux]
  | succ fuel ih =>
    intro n hn
    cases n with
    | zero => simp [toBase91Aux]
    | succ m =>
      rw [Nat.digits_def' (by norm_num : (1:Nat) < 91) (Nat.succ_pos m)]
      have hdiv : (m + 1) / 91 ≤ fuel := by
        have := Nat.div_lt_self (Nat.succ_pos m) (by norm_num : 1 < 91)
        omega
      simp only [toBase91Aux, List.map_cons]
      rw [ih _ hdiv]

/-- The source encoder agrees with the spec-side most-significant-first
encoder everywhere. -/
lemma toBase91_eq_base91Spec (n : Nat) : toBase91 n = base91SpecEncode n := by
  by_cases h : n = 0
  · subst h
    decide
  · unfold toBase91 base91SpecEncode
    rw [if_neg h, if_neg h, toBase91Aux_eq_digits n n le_rfl, base91_table_eq,
        List.map_reverse]

/-- C1: `generateGuid` joins the fields with `"__"`, hashes the UTF-8 bytes
with SHA-256, reads the first 8 digest bytes as a big-endian unsigned integer
and encodes it most-significant-digit-first in base 91 over the fixed alphabet
(lowercase, uppercase, digits, fixed punctuation), zero encoding to the
alphabet's first character with no leading-zero digits. -/
theorem generateGuid_matches_spec :
    (∀ fields : List String, generateGuid fields = deriveDedupKeySpec fields)
    ∧ BASE91_TABLE = lowerAlpha ++ upperAlpha ++ digitChars ++ punctChars
    ∧ toBase91 0 = String.mk [specAlphabet.getD 0 'a'] := by
  refine ⟨?_, by decide, by decide⟩
  intro fields
  have hfold : (fun (h b : Nat) => (h <<< 8) + b) = (fun acc b => acc * 256 + b) := by
    funext h b
    rw [Nat.shiftLeft_eq]
  simp only [generateGuid, deriveDedupKeySpec, hfold]
  exact toBase91_eq_base91Spec _

/-- C4: on an initialized database, `addNote` with a registered model whose
field count differs from the note's fails with the descriptive count-mismatch
error and no state change, and `addNote` with an unregistered model id fails
with the "model not found" error and no state change. -/
theorem addNote_validation_errors :
    ∀ (st : AnkiDatabase) (note : AnkiNote) (modelId deckId now : Nat) (d : DbState),
      st.db = some d →
      ((∀ m : AnkiModel, mapGet st.models modelId = some m →
          note.fields.length ≠ m.flds.length →
          AnkiDatabase.addNote note modelId deckId now st =
            (.error ("Note has " ++ toString note.fields.length ++
                     " fields, but model expects " ++ toString m.flds.length), st))
        ∧ (mapGet st.models modelId = none →
            AnkiDatabase.addNote note modelId deckId now st =
              (.error ("Model " ++ toString modelId ++ " not found"), st))) := by
  intro st note modelId deckId now d hd
  constructor
  · intro m hm hne
    simp only [AnkiDatabase.addNote, hd, hm]
    rw [if_pos hne]
  · intro hm
    simp only [AnkiDatabase.addNote, hd, hm]

/-- Witness for C4: a two-field note against the one-field `tinyModel`, and a
lookup of an unregistered model id. -/
theorem addNote_validation_errors_witness :
    AnkiDatabase.addNote { fields := ["x", "y"] } 7 1 0 tinyDb =
      (.error ("Note has " ++ toString (List.length ["x", "y"]) ++
               " fields, but model expects " ++ toString tinyModel.flds.length), tinyDb)
    ∧ AnkiDatabase.addNote { fields := ["x"] } 8 1 0 tinyDb =
      (.error ("Model " ++ toString 8 ++ " not found"), tinyDb) :=
  ⟨(addNote_validation_errors tinyDb { fields := ["x", "y"] } 7 1 0 tinyDbState rfl).1
     tinyModel (by decide) (by decide),
   (addNote_validation_errors tinyDb { fields := ["x"] } 8 1 0 tinyDbState rfl).2 (by decide)⟩

/-- Characterization of the card-generation loop on an open database: the
ordinals `j, j+1, ..., j+k-1` insert `k` consecutive-id card rows in order and
advance the generator by `k`. -/
lemma addCardsFold_spec :
    ∀ (k j : Nat) (st : AnkiDatabase) (d : DbState) (nid did now : Nat),
      st.db = some d →
      addCardsFold (List.range' j k) nid did now st =
        (.ok (),
         { st with
           idGen := ⟨st.idGen.currentId + k⟩,
           db := some { d with cards := d.cards ++ (List.range k).map (fun i =>
             mkCardRow (st.idGen.currentId + i) nid did (j + i) now) } }) := by
  intro k
  induction k with
  | zero =>
    intro j st d nid did now hd
    show addCardsFold [] nid did now st = _
    simp only [addCardsFold, List.range_zero, List.map_nil, List.append_nil, Nat.add_zero]
    rw [Prod.mk.injEq]
    refine ⟨rfl, ?_⟩
    conv_rhs => rw [show (⟨st.idGen.currentId⟩ : IdGenerator) = st.idGen from rfl,
                    show ({ d with cards := d.cards } : DbState) = d from rfl, ← hd]
  | succ k ih =>
    intro j st d nid did now hd
    rw [List.range'_succ]
    simp only [addCardsFold, AnkiDatabase.addCard, hd, IdGenerator.next]
    rw [ih (j + 1) _ ({ d with cards := d.cards ++ [mkCardRow st.idGen.currentId nid did j now] })
          nid did now rfl]
    rw [Prod.mk.injEq]
    refine ⟨rfl, ?_⟩
    rw [AnkiDatabase.mk.injEq]
    refine ⟨?_, ?_, rfl, rfl, rfl⟩
    · rw [Option.some.injEq, DbState.mk.injEq]
      refine ⟨rfl, rfl, ?_, rfl, rfl⟩
      rw [List.range_succ_eq_map, List.map_cons, List.map_map, List.append_assoc,
          List.singleton_append]
      simp [mkCardRow]
      intro a ha
      omega
    · rw [IdGenerator.mk.injEq]
      simp
      omega

/-- Characterization of a successful `addNote`: one note row, then one card
row per template ordinal `0..k-1` in order, with consecutive ids, returning
the note id. -/
lemma addNote_success_eq :
    ∀ (st : AnkiDatabase) (note : AnkiNote) (modelId deckId now : Nat) (d : DbState)
      (m : AnkiModel),
      st.db = some d →
      mapGet st.models modelId = some m →
      note.fields.length = m.flds.length →
      AnkiDatabase.addNote note modelId deckId now st =
        (.ok st.idGen.currentId,
         { st with
           idGen := ⟨st.idGen.currentId + 1 + m.tmpls.length⟩,
           db := some { d with
             notes := d.notes ++
               [{ id := st.idGen.currentId,
                  guid := note.guid.getD (generateGuid note.fields),
                  mid := modelId, mod := now, usn := -1,
                  tags := formatTags (note.tags.getD []),
                  flds := joinFields note.fields,
                  sfld := note.fields[m.sortf.getD 0]?,
                  csum := calculateChecksum (note.fields.headD ""),
                  flags := 0, data := "" }],
             cards := d.cards ++ (List.range m.tmpls.length).map (fun i =>
               mkCardRow (st.idGen.currentId + 1 + i) st.idGen.currentId deckId i now) } }) := by
  intro st note modelId deckId now d m hd hm hlen
  simp only [AnkiDatabase.addNote, hd, hm, IdGenerator.next]
  rw [if_neg (show ¬ note.fields.length ≠ m.flds.length from by omega)]
  rw [List.range_eq_range']
  rw [addCardsFold_spec m.tmpls.length 0 _ _ _ _ _ rfl]
  simp [mkCardRow]
  rw [List.range_eq_range']

/-- Appending one id below the new block and a consecutive block above keeps
the id pool duplicate-free and bounded by the advanced generator. -/
lemma nodup_extend (A B : List Nat) (c k : Nat)
    (hnd : (A ++ B).Nodup) (hlt : ∀ i ∈ A ++ B, i < c) :
    ((A ++ [c]) ++ (B ++ (List.range k).map (fun i => c + 1 + i))).Nodup ∧
    (∀ i ∈ (A ++ [c]) ++ (B ++ (List.range k).map (fun i => c + 1 + i)), i < c + 1 + k) := by
  simp only [List.nodup_append, List.disjoint_left, List.mem_append, List.mem_singleton,
             List.mem_map, List.mem_range, List.nodup_singleton] at hnd hlt ⊢
  obtain ⟨hA, hB, hAB⟩ := hnd
  have hCnd : ((List.range k).map (fun i => c + 1 + i)).Nodup :=
    List.Nodup.map (fun a b h => by omega) (List.nodup_range k)
  constructor
  · refine ⟨⟨hA, trivial, ?_⟩, ⟨hB, hCnd, ?_⟩, ?_⟩
    · intro a ha hac
      have := hlt a (Or.inl ha)
      omega
    · intro a ha ⟨i, hik, hie⟩
      have := hlt a (Or.inr ha)
      omega
    · intro a ha hmem
      rcases ha with ha | rfl
      · rcases hmem with hm | ⟨i, hik, hie⟩
        · exact hAB ha hm
        · have := hlt a (Or.inl ha)
          omega
      · rcases hmem with hm | ⟨i, hik, hie⟩
        · have := hlt _ (Or.inr hm)
          omega
        · omega
  · intro i hi
    rcases hi with (hi | rfl) | hi | ⟨j, hjk, hje⟩
    · have := hlt i (Or.inl hi)
      omega
    · omega
    · have := hlt i (Or.inr hi)
      omega
    · omega

/-- C6: a successful `addNote` on a model with `k` templates inserts, after the
new note row, exactly one card row per template ordinal `0..k-1` in ascending
ordinal order, each linking the new note id, the given deck id and that
ordinal, in the new scheduling state (type 0, queue 0, zero ivl/factor/reps/
lapses/left) with `due` equal to the card's own id; `addNote` returns the
note id. -/
theorem addNote_creates_cards_per_template :
    ∀ (st : AnkiDatabase) (note : AnkiNote) (modelId deckId now : Nat) (d : DbState)
      (m : AnkiModel),
      st.db = some d →
      mapGet st.models modelId = some m →
      note.fields.length = m.flds.length →
      AnkiDatabase.addNote note modelId deckId now st =
        (.ok st.idGen.currentId,
         { st with
           idGen := ⟨st.idGen.currentId + 1 + m.tmpls.length⟩,
           db := some { d with
             notes := d.notes ++
               [{ id := st.idGen.currentId,
                  guid := note.guid.getD (generateGuid note.fields),
                  mid := modelId, mod := now, usn := -1,
                  tags := formatTags (note.tags.getD []),
                  flds := joinFields note.fields,
                  sfld := note.fields[m.sortf.getD 0]?,
                  csum := calculateChecksum (note.fields.headD ""),
                  flags := 0, data := "" }],
             cards := d.cards ++ (List.range m.tmpls.length).map (fun ord =>
               { id := st.idGen.currentId + 1 + ord, nid := st.idGen.currentId,
                 did := deckId, ord := ord, mod := now, usn := -1, type := 0, queue := 0,
                 due := st.idGen.currentId + 1 + ord, ivl := 0, factor := 0, reps := 0,
                 lapses := 0, left := 0, odue := 0, odid := 0, flags := 0,
                 data := "" }) } }) := by
  intro st note modelId deckId now d m hd hm hlen
  rw [addNote_success_eq st note modelId deckId now d m hd hm hlen]
  rfl

/-- Witness for C6: adding a one-field note to `tinyDb` (generator at 1000,
one template) returns note id 1000. -/
theorem addNote_creates_cards_per_template_witness :
    (AnkiDatabase.addNote { fields := ["x"] } 7 1 5 tinyDb).1 = .ok 1000 := by
  rw [addNote_creates_cards_per_template tinyDb { fields := ["x"] } 7 1 5 tinyDbState tinyModel
      rfl (by decide) (by decide)]
  rfl

/-- C10: a successful `addNote` performed with the generator at `n` on a model
with `k` templates returns note id `n`, gives the `k` cards the consecutive ids
`n+1, ..., n+k` in template-ordinal order, and advances the generator past
them; under the instance invariant (all previously allocated ids are distinct
and below the generator) the full id pool stays pairwise distinct and below
the advanced generator, so ids allocated by one instance are pairwise distinct
and strictly increasing in allocation order. -/
theorem addNote_id_allocation :
    ∀ (st : AnkiDatabase) (note : AnkiNote) (modelId deckId now : Nat) (d : DbState)
      (m : AnkiModel),
      st.db = some d →
      mapGet st.models modelId = some m →
      note.fields.length = m.flds.length →
      (∀ i ∈ allIds st, i < st.idGen.currentId) →
      (allIds st).Nodup →
      ((AnkiDatabase.addNote note modelId deckId now st).1 = .ok st.idGen.currentId
       ∧ (AnkiDatabase.addNote note modelId deckId now st).2.idGen.currentId =
           st.idGen.currentId + 1 + m.tmpls.length
       ∧ allIds (AnkiDatabase.addNote note modelId deckId now st).2 =
           (d.notes.map NoteRow.id ++ [st.idGen.currentId]) ++
           (d.cards.map CardRow.id ++
             (List.range m.tmpls.length).map (fun i => st.idGen.currentId + 1 + i))
       ∧ (allIds (AnkiDatabase.addNote note modelId deckId now st).2).Nodup
       ∧ (∀ i ∈ allIds (AnkiDatabase.addNote note modelId deckId now st).2,
           i < (AnkiDatabase.addNote note modelId deckId now st).2.idGen.currentId)) := by
  intro st note modelId deckId now d m hd hm hlen hlt hnd
  have hlt' : ∀ i ∈ d.notes.map NoteRow.id ++ d.cards.map CardRow.id,
      i < st.idGen.currentId := by
    simpa [allIds, hd] using hlt
  have hnd' : (d.notes.map NoteRow.id ++ d.cards.map CardRow.id).Nodup := by
    simpa [allIds, hd] using hnd
  have hstep := nodup_extend (d.notes.map NoteRow.id) (d.cards.map CardRow.id)
    st.idGen.currentId m.tmpls.length hnd' hlt'
  rw [addNote_success_eq st note modelId deckId now d m hd hm hlen]
  have hids : allIds
      ({ st with
         idGen := ⟨st.idGen.currentId + 1 + m.tmpls.length⟩,
         db := some { d with
           notes := d.notes ++
             [{ id := st.idGen.currentId,
                guid := note.guid.getD (generateGuid note.fields),
                mid := modelId, mod := now, usn := -1,
                tags := formatTags (note.tags.getD []),
                flds := joinFields note.fields,
                sfld := note.fields[m.sortf.getD 0]?,
                csum := calculateChecksum (note.fields.headD ""),
                flags := 0, data := "" }],
           cards := d.cards ++ (List.range m.tmpls.length).map (fun i =>
             mkCardRow (st.idGen.currentId + 1 + i) st.idGen.currentId deckId i
               now) } } : AnkiDatabase) =
      (d.notes.map NoteRow.id ++ [st.idGen.currentId]) ++
      (d.cards.map CardRow.id ++
        (List.range m.tmpls.length).map (fun i => st.idGen.currentId + 1 + i)) := by
    simp [allIds, mkCardRow, List.map_map, Function.comp]
  refine ⟨rfl, rfl, hids, ?_, ?_⟩
  · rw [hids]
    exact hstep.1
  · rw [hids]
    intro i hi
    exact hstep.2 i hi

/-- Witness for C10: on `tinyDb` (generator at 1000, empty tables) the note
gets id 1000 and the generator advances to 1002. -/
theorem addNote_id_allocation_witness :
    (AnkiDatabase.addNote { fields := ["x"] } 7 1 5 tinyDb).2.idGen.currentId = 1002 := by
  have h := (addNote_id_allocation tinyDb { fields := ["x"] } 7 1 5 tinyDbState tinyModel
    rfl (by decide) (by decide) (by decide) (by decide)).2.1
  simpa using h

/-- Setting a present key finds the new value (`Map.set` then `Map.get`). -/
lemma find?_mapSet_self {α : Type} (l : List (Nat × α)) (k : Nat) (v : α) :
    (mapSet l k v).find? (fun p => p.1 = k) = some (k, v) := by
  unfold mapSet
  by_cases h : (l.any (fun p => p.1 = k)) = true
  · rw [if_pos h]
    induction l with
    | nil => simp at h
    | cons p ps ih =>
      simp only [List.any_cons, Bool.or_eq_true] at h
      by_cases hp : p.1 = k
      · simp [hp]
      · simp only [List.map_cons, if_neg hp]
        rw [List.find?_cons_of_neg _ (by simpa using hp)]
        apply ih
        rcases h with h | h
        · exact absurd (by simpa using h) hp
        · exact h
  · rw [if_neg h]
    induction l with
    | nil => simp
    | cons p ps ih =>
      simp only [List.any_cons, Bool.or_eq_true, not_or] at h
      obtain ⟨h1, h2⟩ := h
      simp only [List.cons_append]
      rw [List.find?_cons_of_neg _ (by simpa using h1)]
      exact ih (by simpa using h2)

/-- Setting one key leaves lookups of every other key unchanged. -/
lemma find?_mapSet_ne {α : Type} (l : List (Nat × α)) (k k' : Nat) (v : α) (hne : k' ≠ k) :
    (mapSet l k v).find? (fun p => p.1 = k') = l.find? (fun p => p.1 = k') := by
  unfold mapSet
  by_cases h : (l.any (fun p => p.1 = k)) = true
  · rw [if_pos h]
    clear h
    induction l with
    | nil => simp
    | cons p ps ih =>
      by_cases hp : p.1 = k
      · simp only [List.map_cons, if_pos hp]
        rw [List.find?_cons_of_neg _ (by simpa using (Ne.symm hne)),
            List.find?_cons_of_neg _ (by simp [hp]; omega)]
        exact ih
      · simp only [List.map_cons, if_neg hp]
        by_cases hp' : p.1 = k'
        · rw [List.find?_cons_of_pos _ (by simpa using hp'),
              List.find?_cons_of_pos _ (by simpa using hp')]
        · rw [List.find?_cons_of_neg _ (by simpa using hp'),
              List.find?_cons_of_neg _ (by simpa using hp')]
          exact ih
  · rw [if_neg h]
    clear h
    induction l with
    | nil => simp [List.find?, hne, Ne.symm hne]
    | cons p ps ih =>
      simp only [List.cons_append]
      by_cases hp' : p.1 = k'
      · rw [List.find?_cons_of_pos _ (by simpa using hp'),
            List.find?_cons_of_pos _ (by simpa using hp')]
      · rw [List.find?_cons_of_neg _ (by simpa using hp'),
            List.find?_cons_of_neg _ (by simpa using hp')]
        exact ih

/-- Lookup of the freshly set key yields the new value. -/
lemma mapGet_mapSet_self {α : Type} (l : List (Nat × α)) (k : Nat) (v : α) :
    mapGet (mapSet l k v) k = some v := by
  unfold mapGet
  rw [find?_mapSet_self]
  rfl

/-- Lookup of any other key is unchanged by a set. -/
lemma mapGet_mapSet_ne {α : Type} (l : List (Nat × α)) (k k' : Nat) (v : α) (hne : k' ≠ k) :
    mapGet (mapSet l k v) k' = mapGet l k' := by
  unfold mapGet
  rw [find?_mapSet_ne _ _ _ _ hne]

/-- Rewriting the models column of a single-row col table. -/
lemma setColModels_col (d : DbState) (r : ColRow) (ms : List (String × AnkiModel))
    (hcol : d.col = [r]) (hid : r.id = 1) :
    (setColModels d ms).col = [{ r with models := ms }] := by
  simp [setColModels, hcol, hid]

/-- Invariant of the `addModel` fold: the single col row keeps id 1 and its
models column always holds the serialization of the current insertion-ordered
map, which itself is the `mapSet` fold of the operations. -/
lemma applyAddModels_spec :
    ∀ (ops : List (AnkiModel × Nat)) (st : AnkiDatabase) (d : DbState) (r : ColRow),
      st.db = some d → d.col = [r] → r.id = 1 → r.models = jsObjOrder st.models →
      ∃ d' r', (applyAddModels ops st).db = some d' ∧ d'.col = [r'] ∧ r'.id = 1 ∧
        r'.models = jsObjOrder (applyAddModels ops st).models ∧
        (applyAddModels ops st).models =
          ops.foldl (fun acc p => mapSet acc p.1.id (fillModel p.1 p.2)) st.models := by
  intro ops
  induction ops with
  | nil =>
    intro st d r hd hcol hid hms
    exact ⟨d, r, hd, hcol, hid, by simpa [applyAddModels] using hms, by simp [applyAddModels]⟩
  | cons p ps ih =>
    intro st d r hd hcol hid hms
    have hstep : (AnkiDatabase.addModel p.1 p.2 st).2 =
        { st with
          models := mapSet st.models p.1.id (fillModel p.1 p.2),
          db := some (setColModels d
            (jsObjOrder (mapSet st.models p.1.id (fillModel p.1 p.2)))) } := by
      simp only [AnkiDatabase.addModel, hd]
    have happ : applyAddModels (p :: ps) st =
        applyAddModels ps (AnkiDatabase.addModel p.1 p.2 st).2 := by
      simp [applyAddModels]
    rw [happ, hstep]
    have hres := ih
      ({ st with
         models := mapSet st.models p.1.id (fillModel p.1 p.2),
         db := some (setColModels d
           (jsObjOrder (mapSet st.models p.1.id (fillModel p.1 p.2)))) })
      _ ({ r with models := jsObjOrder (mapSet st.models p.1.id (fillModel p.1 p.2)) })
      rfl (setColModels_col d r _ hcol hid) (by simpa using hid) rfl
    simpa [applyAddModels] using hres

/-- C9: after any sequence of `addModel` calls on an initialized database, the
collection row's models blob is exactly the serialization of the current
insertion-ordered map of (default-filled) stored models keyed by stringified
id; the map is the `mapSet` fold of the calls, so re-adding an id replaces its
entry in place (lookups of the re-added key give the new value, every other
key's entry is untouched) and the whole blob is rewritten from the map. -/
theorem addModel_rewrites_models_blob :
    ∀ (seed nowMs nowSec : Nat) (ops : List (AnkiModel × Nat)),
      (colModels (applyAddModels ops (AnkiDatabase.init nowMs nowSec (mkAnkiDatabase seed))) =
         some (jsObjOrder
           (applyAddModels ops (AnkiDatabase.init nowMs nowSec (mkAnkiDatabase seed))).models)
       ∧ (applyAddModels ops (AnkiDatabase.init nowMs nowSec (mkAnkiDatabase seed))).models =
           ops.foldl (fun acc p => mapSet acc p.1.id (fillModel p.1 p.2)) []
       ∧ (∀ (ms : List (Nat × AnkiModel)) (k : Nat) (v : AnkiModel),
            mapGet (mapSet ms k v) k = some v
            ∧ ∀ k', k' ≠ k → mapGet (mapSet ms k v) k' = mapGet ms k')) := by
  intro seed nowMs nowSec ops
  obtain ⟨d', r', hdb, hcol, hid, hms, hfold⟩ :=
    applyAddModels_spec ops (AnkiDatabase.init nowMs nowSec (mkAnkiDatabase seed))
      { col := [{ id := 1, crt := nowSec, mod := nowMs, scm := nowMs, ver := 11, dty := 0,
                  usn := -1, ls := 0, conf := defaultConfJson, models := [], decks := [],
                  dconf := defaultDconfJson, tags := "\x7b\x7d" }],
        notes := [], cards := [], revlog := [], graves := [] }
      { id := 1, crt := nowSec, mod := nowMs, scm := nowMs, ver := 11, dty := 0,
        usn := -1, ls := 0, conf := defaultConfJson, models := [], decks := [],
        dconf := defaultDconfJson, tags := "\x7b\x7d" }
      rfl rfl rfl rfl
  refine ⟨?_, hfold, fun ms k v =>
    ⟨mapGet_mapSet_self ms k v, fun k' hk => mapGet_mapSet_ne ms k k' v hk⟩⟩
  unfold colModels
  rw [hdb]
  simp [hcol, hid, hms]

/-- Witness for C9: setting key 3 in the empty map finds the new value at 3 and
leaves key 5 unchanged. -/
theorem addModel_rewrites_models_blob_witness :
    mapGet (mapSet ([] : List (Nat × AnkiModel)) 3 tinyModel) 3 = some tinyModel
    ∧ mapGet (mapSet ([] : List (Nat × AnkiModel)) 3 tinyModel) 5 =
        mapGet ([] : List (Nat × AnkiModel)) 5 :=
  ⟨((addModel_rewrites_models_blob 0 0 0 []).2.2 [] 3 tinyModel).1,
   ((addModel_rewrites_models_blob 0 0 0 []).2.2 [] 3 tinyModel).2 5 (by decide)⟩

end AnkiWriter
